/-
Verification of the DepthToSTL GUI-support utilities against their
natural-language specification.

The development shallowly embeds the two source files:

  * ArcBall.py     - arcball mouse-to-3D-rotation mapper (vectors, quaternions,
                     4x4 matrices are idealised over the real numbers; the
                     Python floats become elements of ℝ and math.sqrt becomes
                     Real.sqrt),
  * ScaleSlider.py - float-valued slider widget (its arithmetic is idealised
                     over ℚ; the inner Qt QSlider, an external collaborator,
                     is modelled from Qt's documented integer-slider semantics).

Definitions follow the Python source line by line; theorems settle the frozen
claims about the spec.
-/
import Mathlib

open Classical

/-! ## ArcBall.py : vector / matrix primitives -/

/-- A 3-component vector over ℝ (source `vector3f`, a numpy length-3 array). -/
@[ext] structure Vec3 where
  x : ℝ
  y : ℝ
  z : ℝ

/-- Quaternion as a 4-component array (source `quat4f`), components (x,y,z,w). -/
@[ext] structure Quat4 where
  x : ℝ
  y : ℝ
  z : ℝ
  w : ℝ

/-- A 4x4 matrix over ℝ (source `matrix4f`), row-major entries `aij`. -/
@[ext] structure Mat4 where
  a00 : ℝ
  a01 : ℝ
  a02 : ℝ
  a03 : ℝ
  a10 : ℝ
  a11 : ℝ
  a12 : ℝ
  a13 : ℝ
  a20 : ℝ
  a21 : ℝ
  a22 : ℝ
  a23 : ℝ
  a30 : ℝ
  a31 : ℝ
  a32 : ℝ
  a33 : ℝ

/-- The 4x4 identity matrix (source `matrix4f()` default, `np.identity(4)`). -/
def mat4Id : Mat4 :=
  ⟨1, 0, 0, 0,
   0, 1, 0, 0,
   0, 0, 1, 0,
   0, 0, 0, 1⟩

/-- Matrix product (source `np.dot(A, B)` on two 4x4 arrays): standard
row-by-column matrix multiplication. -/
def Mat4.mul (a b : Mat4) : Mat4 :=
  ⟨a.a00*b.a00 + a.a01*b.a10 + a.a02*b.a20 + a.a03*b.a30,
   a.a00*b.a01 + a.a01*b.a11 + a.a02*b.a21 + a.a03*b.a31,
   a.a00*b.a02 + a.a01*b.a12 + a.a02*b.a22 + a.a03*b.a32,
   a.a00*b.a03 + a.a01*b.a13 + a.a02*b.a23 + a.a03*b.a33,
   a.a10*b.a00 + a.a11*b.a10 + a.a12*b.a20 + a.a13*b.a30,
   a.a10*b.a01 + a.a11*b.a11 + a.a12*b.a21 + a.a13*b.a31,
   a.a10*b.a02 + a.a11*b.a12 + a.a12*b.a22 + a.a13*b.a32,
   a.a10*b.a03 + a.a11*b.a13 + a.a12*b.a23 + a.a13*b.a33,
   a.a20*b.a00 + a.a21*b.a10 + a.a22*b.a20 + a.a23*b.a30,
   a.a20*b.a01 + a.a21*b.a11 + a.a22*b.a21 + a.a23*b.a31,
   a.a20*b.a02 + a.a21*b.a12 + a.a22*b.a22 + a.a23*b.a32,
   a.a20*b.a03 + a.a21*b.a13 + a.a22*b.a23 + a.a23*b.a33,
   a.a30*b.a00 + a.a31*b.a10 + a.a32*b.a20 + a.a33*b.a30,
   a.a30*b.a01 + a.a31*b.a11 + a.a32*b.a21 + a.a33*b.a31,
   a.a30*b.a02 + a.a31*b.a12 + a.a32*b.a22 + a.a33*b.a32,
   a.a30*b.a03 + a.a31*b.a13 + a.a32*b.a23 + a.a33*b.a33⟩

/-- Source `EPSILON = 1.0e-5`. -/
def EPSILON : ℝ := 1e-5

/-- Source `USE_GAVIN_BELL_EXTENSION = True` (fixed build-time flag). -/
def USE_GAVIN_BELL_EXTENSION : Bool := true

/-- Source `mag(v)`, i.e. `np.linalg.norm` of a length-3 vector: the Euclidean
magnitude. -/
noncomputable def mag (v : Vec3) : ℝ :=
  Real.sqrt (v.x * v.x + v.y * v.y + v.z * v.z)

/-- Source `normalise(v) = v / mag(v)` (componentwise division). -/
noncomputable def normalise (v : Vec3) : Vec3 :=
  ⟨v.x / mag v, v.y / mag v, v.z / mag v⟩

/-- Source `np.cross` on two length-3 vectors. -/
def cross (a b : Vec3) : Vec3 :=
  ⟨a.y * b.z - a.z * b.y, a.z * b.x - a.x * b.z, a.x * b.y - a.y * b.x⟩

/-- Source `np.dot` on two length-3 vectors. -/
def dot3 (a b : Vec3) : ℝ :=
  a.x * b.x + a.y * b.y + a.z * b.z

/-- Source `matrix4fSetRotationFromQuat4f(q)`: converts the quaternion q into
a 4x4 rotation matrix, with `n = np.dot(q, q)` and the `s = 0` fallback when
`n = 0`. -/
noncomputable def matrix4fSetRotationFromQuat4f (q : Quat4) : Mat4 :=
  let n := q.x * q.x + q.y * q.y + q.z * q.z + q.w * q.w
  let s := if n > 0 then 2 / n else 0
  let xs := q.x * s
  let ys := q.y * s
  let zs := q.z * s
  let wx := q.w * xs
  let wy := q.w * ys
  let wz := q.w * zs
  let xx := q.x * xs
  let xy := q.x * ys
  let xz := q.x * zs
  let yy := q.y * ys
  let yz := q.y * zs
  let zz := q.z * zs
  ⟨1 - (yy + zz), xy + wz,       xz - wy,       0,
   xy - wz,       1 - (xx + zz), yz + wx,       0,
   xz + wy,       yz - wx,       1 - (xx + yy), 0,
   0,             0,             0,             1⟩

/-! ### Basic lemmas on the primitives -/

theorem Mat4.mul_mat4Id (m : Mat4) : Mat4.mul m mat4Id = m := by
  ext <;> simp [Mat4.mul, mat4Id]

theorem cross_self_vec (v : Vec3) : cross v v = ⟨0, 0, 0⟩ := by
  ext <;> simp [cross] <;> ring

theorem mag_zero_vec : mag ⟨0, 0, 0⟩ = 0 := by
  simp [mag]

/-- The zero quaternion converts to the identity matrix: with `s = 0` every
cross-term vanishes and the diagonal entries `1 - (...)` are all 1. -/
theorem quatZero_matrix : matrix4fSetRotationFromQuat4f ⟨0, 0, 0, 0⟩ = mat4Id := by
  ext <;> simp [matrix4fSetRotationFromQuat4f, mat4Id]

theorem mag_nonneg (v : Vec3) : 0 ≤ mag v := Real.sqrt_nonneg _

/-- A vector whose z component is positive has positive magnitude. -/
theorem mag_pos_of_z_pos (v : Vec3) (hz : 0 < v.z) : 0 < mag v := by
  apply Real.sqrt_pos.mpr
  nlinarith [sq_nonneg v.x, sq_nonneg v.y]

/-- Normalising a vector of nonzero magnitude yields a unit vector. -/
theorem mag_normalise (v : Vec3) (h : mag v ≠ 0) : mag (normalise v) = 1 := by
  have hc : 0 < mag v := lt_of_le_of_ne (mag_nonneg v) (Ne.symm h)
  have hS : v.x * v.x + v.y * v.y + v.z * v.z = mag v * mag v := by
    rw [mag] at *
    exact (Real.mul_self_sqrt (by nlinarith [sq_nonneg v.x, sq_nonneg v.y, sq_nonneg v.z])).symm
  have hsum : (v.x / mag v) * (v.x / mag v) + (v.y / mag v) * (v.y / mag v) +
      (v.z / mag v) * (v.z / mag v) = 1 := by
    field_simp
    linarith [hS]
  rw [normalise, mag, hsum, Real.sqrt_one]

/-! ## ArcBall.py : projection helpers and the ArcBallT class -/

/-- The hemisphere z-formula from `_mapToSphere`:
`math.sqrt(radius2 - length2)`. -/
noncomputable def hemisphereZ (radius2 length2 : ℝ) : ℝ :=
  Real.sqrt (radius2 - length2)

/-- The hyperbolic-sheet z-formula from `_mapToSphere`:
`pz = radius2 / (2.0 * length)`. -/
noncomputable def hyperbolaZ (radius2 length : ℝ) : ℝ :=
  radius2 / (2 * length)

/-- State of the `ArcBallT` class. The Python attribute `startRot` is created
only by `click` (it is absent on a freshly constructed object, whose `drag`
therefore fails with an `AttributeError` when reading it); it is modelled as an
`Option`, `none` standing for the absent attribute. -/
structure ArcBallT where
  m_StVec : Vec3
  m_EnVec : Vec3
  m_WindowWidth : ℝ
  m_WindowHeight : ℝ
  startRot : Option Mat4

/-- Source `ArcBallT.__init__`: zero vectors, 1.0 x 1.0 window, no `startRot`
attribute yet. -/
def ArcBallT.init : ArcBallT :=
  ⟨⟨0, 0, 0⟩, ⟨0, 0, 0⟩, 1, 1, none⟩

/-- Source `ArcBallT.setBounds(newWidth, newHeight)`. -/
def ArcBallT.setBounds (s : ArcBallT) (newWidth newHeight : ℝ) : ArcBallT :=
  { s with m_WindowWidth := newWidth, m_WindowHeight := newHeight }

/-- Source `ArcBallT._mapToSphere(x, y)`: project a pointer position onto the
(Gavin Bell hybrid) sphere and normalise. Pure in the window extent. -/
noncomputable def ArcBallT.mapToSphere (s : ArcBallT) (x y : ℝ) : Vec3 :=
  let cx := (s.m_WindowWidth - 1) * 0.5
  let cy := (s.m_WindowHeight - 1) * 0.5
  let sx := x - cx
  let sy := cy - y
  let minDim := min s.m_WindowWidth s.m_WindowHeight / 2
  let length2 := sx * sx + sy * sy
  let length := Real.sqrt length2
  let spherePos :=
    if USE_GAVIN_BELL_EXTENSION then
      -- Radius of the arc ball - 0.5 of smallest screen dimension from centre
      let radius := 0.5 * minDim
      let radius2 := radius * radius
      if length < radius / Real.sqrt 2 then
        Vec3.mk sx sy (hemisphereZ radius2 length2)
      else
        Vec3.mk sx sy (hyperbolaZ radius2 length)
    else
      -- Standard ArcBall: radius 0.7 of smallest screen dimension, clamp outside
      let radius := 0.7 * minDim
      let radius2 := radius * radius
      if length < radius then
        Vec3.mk sx sy (hemisphereZ radius2 length2)
      else
        Vec3.mk sx sy 0
  normalise spherePos

/-- Source `ArcBallT.click(startRot, x, y)`: copy the caller's matrix into `startRot`
and store the start sphere point. -/
noncomputable def ArcBallT.click (s : ArcBallT) (startRot : Mat4) (x y : ℝ) : ArcBallT :=
  { s with startRot := some startRot, m_StVec := s.mapToSphere x y }

/-- Source `ArcBallT.drag(x, y)`: store the end sphere point, build the incremental
quaternion from the cross and dot products of the two sphere points (the zero
quaternion when the cross product is within `EPSILON`), convert it to a matrix
`r`, and return `np.dot(self.startRot, r)`.  The result is the updated state
paired with the returned matrix; the matrix is `none` when the `startRot`
attribute is absent (Python raises `AttributeError` in that case). -/
noncomputable def ArcBallT.drag (s : ArcBallT) (x y : ℝ) : ArcBallT × Option Mat4 :=
  let en := s.mapToSphere x y
  let s' := { s with m_EnVec := en }
  let perp := cross s.m_StVec en
  let quat : Quat4 :=
    if mag perp > EPSILON then
      ⟨perp.x, perp.y, perp.z, dot3 s.m_StVec en⟩
    else
      -- begin and end vectors coincide: quaternion of zeroes (no rotation)
      ⟨0, 0, 0, 0⟩
  let r := matrix4fSetRotationFromQuat4f quat
  (s', s.startRot.map (fun sr => Mat4.mul sr r))

/-- Source `initialViewUnrotated = quat4f(0.0, 0.0, 0.0, 0.0)`. -/
def initialViewUnrotated : Quat4 := ⟨0, 0, 0, 0⟩

/-- Source `initialViewY = quat4f(-math.sqrt(2.0), 0.0, 0.0, math.sqrt(2.0))`. -/
noncomputable def initialViewY : Quat4 := ⟨-Real.sqrt 2, 0, 0, Real.sqrt 2⟩

/-- Source `initialRot(q)` (Python default argument `initialViewUnrotated`). -/
noncomputable def initialRot (q : Quat4) : Mat4 :=
  matrix4fSetRotationFromQuat4f q

/-- Source `_mapToSphere` only reads the window extent from the state. -/
theorem mapToSphere_congr (s₁ s₂ : ArcBallT) (x y : ℝ)
    (hw : s₁.m_WindowWidth = s₂.m_WindowWidth)
    (hh : s₁.m_WindowHeight = s₂.m_WindowHeight) :
    s₁.mapToSphere x y = s₂.mapToSphere x y := by
  simp only [ArcBallT.mapToSphere, hw, hh]

/-- On the hemisphere branch (`length < radius / sqrt 2`) the pre-normalisation
z-value is strictly positive. -/
theorem hemisphereZ_pos (radius length2 : ℝ) (hr : 0 < radius) (h2 : 0 ≤ length2)
    (hc : Real.sqrt length2 < radius / Real.sqrt 2) :
    0 < hemisphereZ (radius * radius) length2 := by
  have hs2 : Real.sqrt 2 * Real.sqrt 2 = 2 := Real.mul_self_sqrt (by norm_num)
  have h1 : Real.sqrt length2 * Real.sqrt length2 <
      (radius / Real.sqrt 2) * (radius / Real.sqrt 2) :=
    mul_self_lt_mul_self (Real.sqrt_nonneg _) hc
  rw [Real.mul_self_sqrt h2] at h1
  have h3 : (radius / Real.sqrt 2) * (radius / Real.sqrt 2) = radius * radius / 2 := by
    rw [div_mul_div_comm, hs2]
  rw [h3] at h1
  apply Real.sqrt_pos.mpr
  nlinarith

/-- On the hyperbola branch the pre-normalisation z-value is strictly
positive. -/
theorem hyperbolaZ_pos (radius length : ℝ) (hr : 0 < radius) (hl : 0 < length) :
    0 < hyperbolaZ (radius * radius) length := by
  exact div_pos (mul_pos hr hr) (by linarith)

/-- Whenever the window extent is positive, `_mapToSphere` returns a vector of
magnitude exactly 1 (in the exact-real idealisation there is no singular
input: the pre-normalisation z-value is positive on both Gavin Bell
branches). -/
theorem mapToSphere_mag (s : ArcBallT) (x y : ℝ)
    (hw : 0 < s.m_WindowWidth) (hh : 0 < s.m_WindowHeight) :
    mag (s.mapToSphere x y) = 1 := by
  have hmin : 0 < min s.m_WindowWidth s.m_WindowHeight := lt_min hw hh
  have hrad : 0 < 0.5 * (min s.m_WindowWidth s.m_WindowHeight / 2) := by positivity
  simp only [ArcBallT.mapToSphere, USE_GAVIN_BELL_EXTENSION, if_true]
  apply mag_normalise
  refine ne_of_gt ?_
  split_ifs with hc
  · exact mag_pos_of_z_pos _
      (hemisphereZ_pos _ _ hrad (add_nonneg (mul_self_nonneg _) (mul_self_nonneg _)) hc)
  · have hl : 0 < Real.sqrt ((x - (s.m_WindowWidth - 1) * 0.5) *
        (x - (s.m_WindowWidth - 1) * 0.5) +
        ((s.m_WindowHeight - 1) * 0.5 - y) * ((s.m_WindowHeight - 1) * 0.5 - y)) := by
      have h0 : 0 < 0.5 * (min s.m_WindowWidth s.m_WindowHeight / 2) / Real.sqrt 2 :=
        div_pos hrad (Real.sqrt_pos.mpr (by norm_num))
      linarith [not_lt.mp hc]
    exact mag_pos_of_z_pos _ (hyperbolaZ_pos _ _ hrad hl)

/-- States of `ArcBallT` reachable through the public interface, window
resizes restricted to positive extents. -/
inductive Reachable : ArcBallT → Prop where
  | init : Reachable ArcBallT.init
  | setBounds (s : ArcBallT) (w h : ℝ) :
      Reachable s → 0 < w → 0 < h → Reachable (s.setBounds w h)
  | click (s : ArcBallT) (rot : Mat4) (x y : ℝ) :
      Reachable s → Reachable (s.click rot x y)
  | drag (s : ArcBallT) (x y : ℝ) :
      Reachable s → Reachable (s.drag x y).1

/-- Reachable states have positive window extent. -/
theorem reachable_extent_pos (s : ArcBallT) (h : Reachable s) :
    0 < s.m_WindowWidth ∧ 0 < s.m_WindowHeight := by
  induction h with
  | init => norm_num [ArcBallT.init]
  | setBounds s w hgt _ hw hh _ => exact ⟨hw, hh⟩
  | click s rot x y _ ih => exact ih
  | drag s x y _ ih => exact ih

/-- The spec's invariant on the stored sphere points: each is unit-length or
still the initial zero vector. -/
def sphereInv (s : ArcBallT) : Prop :=
  (mag s.m_StVec = 1 ∨ s.m_StVec = ⟨0, 0, 0⟩) ∧
    (mag s.m_EnVec = 1 ∨ s.m_EnVec = ⟨0, 0, 0⟩)

/-- The sphere-point invariant holds in every reachable state. -/
theorem reachable_sphereInv (s : ArcBallT) (h : Reachable s) : sphereInv s := by
  induction h with
  | init => exact ⟨Or.inr rfl, Or.inr rfl⟩
  | setBounds s w hgt _ hw hh ih => exact ih
  | click s rot x y hr ih =>
      obtain ⟨hw, hh⟩ := reachable_extent_pos s hr
      exact ⟨Or.inl (mapToSphere_mag s x y hw hh), ih.2⟩
  | drag s x y hr ih =>
      obtain ⟨hw, hh⟩ := reachable_extent_pos s hr
      exact ⟨ih.1, Or.inl (mapToSphere_mag s x y hw hh)⟩

/-! ## Claims about the arcball -/

/-- C1: for every 4x4 matrix `rot`, pointer coordinates `(x0, y0)` and
positive viewport extent, `click(rot, x0, y0)` followed by `drag(x0, y0)`
returns a matrix equal to `rot`: the start and end sphere points coincide, the
cross product is zero, the zero quaternion converts to the identity matrix,
and `rot * I = rot`. -/
theorem zero_drag_returns_start_rotation (s : ArcBallT) (rot : Mat4) (x0 y0 : ℝ)
    (hw : 0 < s.m_WindowWidth) (hh : 0 < s.m_WindowHeight) :
    ((s.click rot x0 y0).drag x0 y0).2 = some rot := by
  have hmap : (s.click rot x0 y0).mapToSphere x0 y0 = s.mapToSphere x0 y0 :=
    mapToSphere_congr _ _ x0 y0 rfl rfl
  have hst : (s.click rot x0 y0).m_StVec = s.mapToSphere x0 y0 := rfl
  have hsr : (s.click rot x0 y0).startRot = some rot := rfl
  simp only [ArcBallT.drag, hmap, hst, hsr, cross_self_vec, mag_zero_vec,
    Option.map_some']
  rw [if_neg (by norm_num [EPSILON] : ¬ (0:ℝ) > EPSILON)]
  rw [quatZero_matrix, Mat4.mul_mat4Id]

/-- Witness for C1 at the freshly constructed mapper (1.0 x 1.0 window),
identity start rotation and pointer (0, 0). -/
theorem zero_drag_returns_start_rotation_witness :
    0 < ArcBallT.init.m_WindowWidth ∧ 0 < ArcBallT.init.m_WindowHeight ∧
      ((ArcBallT.init.click mat4Id 0 0).drag 0 0).2 = some mat4Id :=
  ⟨by norm_num [ArcBallT.init], by norm_num [ArcBallT.init],
    zero_drag_returns_start_rotation ArcBallT.init mat4Id 0 0
      (by norm_num [ArcBallT.init]) (by norm_num [ArcBallT.init])⟩

/-- The 3x3 rotation block of a 4x4 matrix consists only of zeros (the outcome
the claim asserts for the zero quaternion). -/
def rotationBlockAllZero (m : Mat4) : Prop :=
  m.a00 = 0 ∧ m.a01 = 0 ∧ m.a02 = 0 ∧
    m.a10 = 0 ∧ m.a11 = 0 ∧ m.a12 = 0 ∧
    m.a20 = 0 ∧ m.a21 = 0 ∧ m.a22 = 0

/-- C2 counterexample: converting the all-zero quaternion does *not*
produce an all-zero 3x3 rotation block — the diagonal entries `1 - (yy + zz)`,
`1 - (xx + zz)`, `1 - (xx + yy)` are all 1 when every cross-term vanishes. -/
theorem quatZero_block_not_all_zero :
    ¬ rotationBlockAllZero (matrix4fSetRotationFromQuat4f ⟨0, 0, 0, 0⟩) := by
  rw [quatZero_matrix]
  intro hzero
  exact absurd hzero.1 (by norm_num [mat4Id])

/-- C2 (amended): the quaternion-to-matrix conversion applied to the
all-zero quaternion (the `n = 0` degenerate case, the constant
`initialViewUnrotated`) produces exactly the 4x4 identity matrix, identity
3x3 rotation block included. -/
theorem quatZero_matrix_is_identity :
    matrix4fSetRotationFromQuat4f initialViewUnrotated = mat4Id :=
  quatZero_matrix

/-- C3: with positive viewport extent every projected pointer has magnitude
exactly 1 (in the exact-real idealisation even the claimed singularity is
absent), and consequently in every state reachable by
`setBounds`/`click`/`drag` the stored start and end sphere points are
unit-length or the initial zero vector. -/
theorem mapToSphere_unit_and_invariant :
    (∀ (s : ArcBallT) (x y : ℝ), 0 < s.m_WindowWidth → 0 < s.m_WindowHeight →
        mag (s.mapToSphere x y) = 1) ∧
      (∀ s : ArcBallT, Reachable s → sphereInv s) :=
  ⟨mapToSphere_mag, reachable_sphereInv⟩

/-- Witness for C3 at the initial state (1.0 x 1.0 window) and pointer
(0, 0). -/
theorem mapToSphere_unit_and_invariant_witness :
    mag (ArcBallT.init.mapToSphere 0 0) = 1 ∧ sphereInv ArcBallT.init :=
  ⟨mapToSphere_unit_and_invariant.1 ArcBallT.init 0 0
      (by norm_num [ArcBallT.init]) (by norm_num [ArcBallT.init]),
    mapToSphere_unit_and_invariant.2 ArcBallT.init Reachable.init⟩

/-- C6 counterexample: on a freshly constructed mapper, `drag(0, 0)` does
*not* return a rotation matrix — the `startRot` attribute was never created
(only `click` creates it), so the Python code fails with an `AttributeError`
(modelled as `none`). -/
theorem drag_without_click_returns_none : (ArcBallT.init.drag 0 0).2 = none := by
  simp [ArcBallT.drag, ArcBallT.init]

/-- C4: after a gesture began (`startRot` is present), `drag(x, y)` stores
the end sphere point, builds the quaternion with vector part the cross product
of start and end sphere points and scalar part their dot product when the
cross product's magnitude exceeds `EPSILON = 1e-5` (the zero quaternion
otherwise), and returns the start rotation matrix times the incremental
matrix, start composed on the left. -/
theorem drag_formula (s : ArcBallT) (x y : ℝ) (sr : Mat4)
    (hsr : s.startRot = some sr) :
    (s.drag x y).1.m_EnVec = s.mapToSphere x y ∧
      (s.drag x y).2 = some (Mat4.mul sr (matrix4fSetRotationFromQuat4f
        (if mag (cross s.m_StVec (s.mapToSphere x y)) > EPSILON then
          ⟨(cross s.m_StVec (s.mapToSphere x y)).x,
            (cross s.m_StVec (s.mapToSphere x y)).y,
            (cross s.m_StVec (s.mapToSphere x y)).z,
            dot3 s.m_StVec (s.mapToSphere x y)⟩
        else ⟨0, 0, 0, 0⟩))) := by
  constructor
  · rfl
  · simp only [ArcBallT.drag, hsr, Option.map_some']

/-- Witness for C4 at the freshly constructed mapper after
`click(identity, 0, 0)`. -/
theorem drag_formula_witness :
    ((ArcBallT.init.click mat4Id 0 0).drag 0 0).1.m_EnVec =
        (ArcBallT.init.click mat4Id 0 0).mapToSphere 0 0 ∧
      ((ArcBallT.init.click mat4Id 0 0).drag 0 0).2 =
        some (Mat4.mul mat4Id (matrix4fSetRotationFromQuat4f
          (if mag (cross (ArcBallT.init.click mat4Id 0 0).m_StVec
              ((ArcBallT.init.click mat4Id 0 0).mapToSphere 0 0)) > EPSILON then
            ⟨(cross (ArcBallT.init.click mat4Id 0 0).m_StVec
                ((ArcBallT.init.click mat4Id 0 0).mapToSphere 0 0)).x,
              (cross (ArcBallT.init.click mat4Id 0 0).m_StVec
                ((ArcBallT.init.click mat4Id 0 0).mapToSphere 0 0)).y,
              (cross (ArcBallT.init.click mat4Id 0 0).m_StVec
                ((ArcBallT.init.click mat4Id 0 0).mapToSphere 0 0)).z,
              dot3 (ArcBallT.init.click mat4Id 0 0).m_StVec
                ((ArcBallT.init.click mat4Id 0 0).mapToSphere 0 0)⟩
          else ⟨0, 0, 0, 0⟩))) :=
  drag_formula (ArcBallT.init.click mat4Id 0 0) 0 0 mat4Id rfl

/-- C5: in the Gavin Bell policy the pre-normalisation z-value is
continuous across the hemisphere/hyperbola boundary: at pointer distance
exactly `radius / sqrt 2` from the centre, both the hemisphere formula
`sqrt(radius^2 - length^2)` and the hyperbola formula
`radius^2 / (2 * length)` evaluate to `radius / sqrt 2`. -/
theorem boundary_z_continuous (radius : ℝ) (hr : 0 < radius) :
    hemisphereZ (radius * radius)
        ((radius / Real.sqrt 2) * (radius / Real.sqrt 2)) = radius / Real.sqrt 2 ∧
      hyperbolaZ (radius * radius) (radius / Real.sqrt 2) = radius / Real.sqrt 2 := by
  have hs2 : Real.sqrt 2 * Real.sqrt 2 = 2 := Real.mul_self_sqrt (by norm_num)
  have hs2pos : 0 < Real.sqrt 2 := Real.sqrt_pos.mpr (by norm_num)
  have hb : (radius / Real.sqrt 2) * (radius / Real.sqrt 2) = radius * radius / 2 := by
    rw [div_mul_div_comm, hs2]
  constructor
  · rw [hemisphereZ]
    have hdiff : radius * radius -
        (radius / Real.sqrt 2) * (radius / Real.sqrt 2) =
        (radius / Real.sqrt 2) * (radius / Real.sqrt 2) := by
      rw [hb]; ring
    rw [hdiff, Real.sqrt_mul_self (le_of_lt (div_pos hr hs2pos))]
  · rw [hyperbolaZ]
    have hrne : radius ≠ 0 := ne_of_gt hr
    have hsne : Real.sqrt 2 ≠ 0 := ne_of_gt hs2pos
    field_simp
    nlinarith [hs2]

/-- Witness for C5 at radius 1. -/
theorem boundary_z_continuous_witness :
    (0:ℝ) < 1 ∧
      hemisphereZ (1 * 1) ((1 / Real.sqrt 2) * (1 / Real.sqrt 2)) = 1 / Real.sqrt 2 ∧
      hyperbolaZ (1 * 1) (1 / Real.sqrt 2) = 1 / Real.sqrt 2 :=
  ⟨by norm_num, (boundary_z_continuous 1 (by norm_num)).1,
    (boundary_z_continuous 1 (by norm_num)).2⟩

/-- The homogeneous matrix of a 90-degree rotation about the x axis: it sends
the y axis to the z axis and the z axis to the negative y axis. -/
def rotX90 : Mat4 :=
  ⟨1, 0,  0, 0,
   0, 0, -1, 0,
   0, 1,  0, 0,
   0, 0,  0, 1⟩

/-- Evaluation of the quaternion-to-matrix conversion at `(-t, 0, 0, t)` for
any `t` with `t * t = 2`: `n = 4`, `s = 1/2`, giving the 90-degree x-axis
rotation matrix. -/
theorem quatT_matrix_eval (t : ℝ) (ht : t * t = 2) :
    matrix4fSetRotationFromQuat4f ⟨-t, 0, 0, t⟩ = rotX90 := by
  have hn4 : -t * -t + 0 * 0 + 0 * 0 + t * t = (4:ℝ) := by nlinarith
  simp only [matrix4fSetRotationFromQuat4f, hn4]
  rw [if_pos (by norm_num : (4:ℝ) > 0)]
  ext <;> simp only [rotX90] <;> nlinarith [ht]

/-- Source `initialViewY` converts to the 90-degree x-axis rotation matrix. -/
theorem initialViewY_matrix_eval :
    matrix4fSetRotationFromQuat4f initialViewY = rotX90 :=
  quatT_matrix_eval (Real.sqrt 2) (Real.mul_self_sqrt (by norm_num))

/-- A homogeneous matrix represents a rotation of 180 degrees about some axis
only if it is an involution distinct from the identity (for every axis `u`,
the 180-degree rotation about `u` squares to the identity and is not the
identity); among proper rotation matrices these conditions are also
sufficient. -/
def isRotationBy180 (m : Mat4) : Prop :=
  m ≠ mat4Id ∧ Mat4.mul m m = mat4Id

/-- C7 counterexample: the matrix obtained from `initialViewY` is *not* a
180-degree rotation: its square is not the identity (the square's `a11` entry
is `-1`). -/
theorem initialViewY_not_rotation_180 :
    ¬ isRotationBy180 (matrix4fSetRotationFromQuat4f initialViewY) := by
  rw [initialViewY_matrix_eval]
  rintro ⟨hne, hsq⟩
  have h11 : (Mat4.mul rotX90 rotX90).a11 = mat4Id.a11 := by rw [hsq]
  norm_num [Mat4.mul, rotX90, mat4Id] at h11

/-- C7 (amended): `initialViewY` converts to the 90-degree rotation about
the x axis; it is its *square* that is a 180-degree rotation (an involution
distinct from the identity). -/
theorem initialViewY_is_90_about_x :
    matrix4fSetRotationFromQuat4f initialViewY = rotX90 ∧
      isRotationBy180 (Mat4.mul rotX90 rotX90) := by
  refine ⟨initialViewY_matrix_eval, ?_, ?_⟩
  · intro h
    have h11 := congrArg Mat4.a11 h
    norm_num [Mat4.mul, rotX90, mat4Id] at h11
  · ext <;> norm_num [Mat4.mul, rotX90, mat4Id]

/-- C6 (amended): calling `drag` on a freshly constructed mapper without a
prior `click` is indeed not validated internally, but it does not compute and
return a rotation matrix from stale/default state: for every pointer position
it fails with an `AttributeError` when reading the absent `startRot`
attribute, so no matrix is produced. -/
theorem drag_without_click_always_fails :
    ∀ x y : ℝ, (ArcBallT.init.drag x y).2 = none := by
  intro x y
  simp [ArcBallT.drag, ArcBallT.init]

/-! ## ScaleSlider.py : float slider widget

The slider arithmetic is idealised over ℚ.  The inner `QtWidgets.QSlider` is
an external collaborator; it is modelled from Qt's documented
`QAbstractSlider` semantics (integer minimum/maximum/value, the value always
bounded into `[minimum, maximum]`). -/

/-- Python `int()` applied to a rational number: truncation toward zero. -/
def pyInt (q : ℚ) : ℤ :=
  if 0 ≤ q then ⌊q⌋ else -⌊-q⌋

/-- Python 3 `round()` to an integer: round half to even. -/
def pyRound (q : ℚ) : ℤ :=
  let f := ⌊q⌋
  if q - (f : ℚ) < 1/2 then f
  else if q - (f : ℚ) > 1/2 then f + 1
  else if f % 2 = 0 then f else f + 1

/-- Exceptions raised by the Python code. -/
inductive PyErr where
  | valueError (msg : String)
  | typeError (msg : String)
deriving DecidableEq

/-- State of the inner Qt `QSlider` (external collaborator, modelled from
Qt's documented integer-slider behaviour). -/
structure QSliderState where
  minimum : ℤ
  maximum : ℤ
  value : ℤ
  tickInterval : ℤ
deriving DecidableEq

/-- A freshly constructed `QSlider`: Qt defaults are range 0..99, value 0,
tick interval 0. -/
def QSliderState.init : QSliderState := ⟨0, 99, 0, 0⟩

/-- Qt `QAbstractSlider.setMaximum(m)`: lowers the minimum to `m` when
necessary and re-bounds the value into the new range. -/
def QSliderState.setMaximum (s : QSliderState) (m : ℤ) : QSliderState :=
  let newMin := min s.minimum m
  { s with minimum := newMin, maximum := m,
           value := max newMin (min m s.value) }

/-- Qt `QAbstractSlider.setValue(v)`: stores `v` bounded into
`[minimum, maximum]`. -/
def QSliderState.setValue (s : QSliderState) (v : ℤ) : QSliderState :=
  { s with value := max s.minimum (min s.maximum v) }

/-- Qt `QSlider.setTickInterval(ts)`: stores `max 0 ts`. -/
def QSliderState.setTickInterval (s : QSliderState) (ts : ℤ) : QSliderState :=
  { s with tickInterval := max 0 ts }

/-- State of the `ScaleSlider` widget: the four numeric instance attributes
assigned in `__init__` (`self.minv`, `self.maxv`, `self.interval`,
`self.tickInterval` — note the latter two shadow the identically named getter
methods of the class), the inner QSlider, and the `Scale` widget's stored
`(minv, maxv, tickInterval)` triple (`Scale.setScale` stores them and
repaints). -/
structure ScaleSlider where
  minv : ℚ
  maxv : ℚ
  interval : ℚ
  tickInterval : ℚ
  slider : QSliderState
  scaleMinv : ℚ
  scaleMaxv : ℚ
  scaleTick : ℚ
deriving DecidableEq

/-- Source `ScaleSlider._range_adjusted()`: `number_of_steps = int(r / interval)`
becomes the inner slider's maximum, the inner tick interval is `-1` for a
negative `tickInterval` and `int(tickInterval / r * number_of_steps)`
otherwise, and the scale is updated.  (With `tickInterval ≥ 0` and
`maxv = minv` the Python float division `tickInterval / r` would raise
`ZeroDivisionError`; no claim exercises that corner, and total ℚ division is
used for it.) -/
def ScaleSlider.rangeAdjusted (s : ScaleSlider) : ScaleSlider :=
  let r := s.maxv - s.minv
  let number_of_steps := pyInt (r / s.interval)
  let slider1 := s.slider.setMaximum number_of_steps
  let slider2 :=
    if s.tickInterval < 0 then
      slider1.setTickInterval (-1)
    else
      slider1.setTickInterval (pyInt (s.tickInterval / r * (number_of_steps : ℚ)))
  { s with slider := slider2,
           scaleMinv := s.minv, scaleMaxv := s.maxv, scaleTick := s.tickInterval }

/-- Source `ScaleSlider.__init__` (after the Qt layout plumbing): `minv = 0`,
`maxv = 99`, `interval = 1`, `tickInterval = -1`, then `_range_adjusted()`.
The `Scale` sub-widget starts at `setScale(0, 99, -1)`. -/
def ScaleSlider.init : ScaleSlider :=
  ScaleSlider.rangeAdjusted ⟨0, 99, 1, -1, QSliderState.init, 0, 99, -1⟩

/-- Source `ScaleSlider.value()`: `self.index * self.interval + self.minv`, where
`index` is the inner slider's integer value. -/
def ScaleSlider.value (s : ScaleSlider) : ℚ :=
  (s.slider.value : ℚ) * s.interval + s.minv

/-- Source `ScaleSlider.setValue(value)`: `index = round((value - minv) / interval)`
passed to the inner Qt slider. -/
def ScaleSlider.setValue (s : ScaleSlider) (v : ℚ) : ScaleSlider :=
  let index := pyRound ((v - s.minv) / s.interval)
  { s with slider := s.slider.setValue index }

/-- Source `ScaleSlider.setIndex(index)`: the raw integer index passed to the inner
slider. -/
def ScaleSlider.setIndex (s : ScaleSlider) (index : ℤ) : ScaleSlider :=
  { s with slider := s.slider.setValue index }

/-- Source `ScaleSlider.setMinimum(value)`. -/
def ScaleSlider.setMinimum (s : ScaleSlider) (v : ℚ) : ScaleSlider :=
  ScaleSlider.rangeAdjusted { s with minv := v }

/-- Source `ScaleSlider.setMaximum(value)`. -/
def ScaleSlider.setMaximum (s : ScaleSlider) (v : ℚ) : ScaleSlider :=
  ScaleSlider.rangeAdjusted { s with maxv := v }

/-- Source `ScaleSlider.setRange(minv, maxv)`. -/
def ScaleSlider.setRange (s : ScaleSlider) (minv maxv : ℚ) : ScaleSlider :=
  ScaleSlider.rangeAdjusted { s with minv := minv, maxv := maxv }

/-- Source `ScaleSlider.setTickInterval(value)`. -/
def ScaleSlider.setTickInterval (s : ScaleSlider) (v : ℚ) : ScaleSlider :=
  ScaleSlider.rangeAdjusted { s with tickInterval := v }

/-- Source `ScaleSlider.setInterval(value)`: `if not value` raises
`ValueError('Interval of zero specified')` *before* the assignment
`self.interval = value` and before `_range_adjusted()`, so on the error path
no state is modified. -/
def ScaleSlider.setInterval (s : ScaleSlider) (v : ℚ) : Except PyErr ScaleSlider :=
  if v = 0 then Except.error (PyErr.valueError "Interval of zero specified")
  else Except.ok (ScaleSlider.rangeAdjusted { s with interval := v })

/-- A Python runtime value, as relevant to attribute access on the widget:
a plain number or a bound method. -/
inductive PyVal where
  | num (q : ℚ)
  | boundMethod (f : Unit → ℚ)

/-- Python attribute lookup for `slider.interval`: instance attributes take
precedence over class methods (plain functions are non-data descriptors), and
`__init__` put the number `self.interval = 1` into the instance dictionary
(later reassigned only by `setInterval`), so the lookup always yields the
stored number and never the class's `interval` method; `__getattr__` is not
consulted because the ordinary lookup succeeds. -/
def ScaleSlider.lookupIntervalAttr (s : ScaleSlider) : PyVal :=
  PyVal.num s.interval

/-- Python attribute lookup for `slider.tickInterval`: as with `interval`,
the instance attribute assigned in `__init__` shadows the class's
`tickInterval` method. -/
def ScaleSlider.lookupTickIntervalAttr (s : ScaleSlider) : PyVal :=
  PyVal.num s.tickInterval

/-- Calling a Python value with no arguments: a number is not callable
(`TypeError`); a bound method runs. -/
def PyVal.callNoArgs : PyVal → Except PyErr ℚ
  | PyVal.num _ => Except.error (PyErr.typeError "object is not callable")
  | PyVal.boundMethod f => Except.ok (f ())

/-- Python 3 `round()` is within half a unit of its argument. -/
theorem pyRound_abs_le (q : ℚ) : |(pyRound q : ℚ) - q| ≤ 1/2 := by
  have h0 : ((⌊q⌋ : ℤ) : ℚ) ≤ q := Int.floor_le q
  have h1 : q < ⌊q⌋ + 1 := Int.lt_floor_add_one q
  rw [pyRound]
  split_ifs with hlt hgt heven <;>
    (rw [abs_le]; constructor <;> push_cast <;> linarith)

/-- Evaluation of the constructor: `number_of_steps = int(99 / 1) = 99`, the
inner slider keeps range 0..99 and value 0, tick interval `-1 < 0` maps to 0
on the inner slider. -/
theorem ScaleSlider.init_eval :
    ScaleSlider.init = ⟨0, 99, 1, -1, ⟨0, 99, 0, 0⟩, 0, 99, -1⟩ := by
  simp [ScaleSlider.init, ScaleSlider.rangeAdjusted, QSliderState.init,
    QSliderState.setMaximum, QSliderState.setTickInterval, pyInt]

/-! ## Claims about the slider -/

/-- C8: `setInterval(0)` raises the descriptive
`ValueError('Interval of zero specified')` immediately (the `if not value`
guard precedes the assignment and `_range_adjusted()`), and no updated state
is ever produced, so the stored interval and range configuration are
untouched. -/
theorem setInterval_zero_raises (s : ScaleSlider) :
    s.setInterval 0 = Except.error (PyErr.valueError "Interval of zero specified") ∧
      ∀ t : ScaleSlider, s.setInterval 0 ≠ Except.ok t := by
  refine ⟨by simp [ScaleSlider.setInterval], ?_⟩
  intro t h
  simp [ScaleSlider.setInterval] at h

/-- Source `r` is (one of) the multiples of the configured interval above the
configured minimum nearest to `v`: it lies on the grid
`minv + k * interval` and no grid point is strictly closer to `v`. -/
def isNearestMultiple (s : ScaleSlider) (v r : ℚ) : Prop :=
  (∃ k : ℤ, r = s.minv + (k : ℚ) * s.interval) ∧ |r - v| ≤ s.interval / 2

/-- C9 counterexample: with the default configuration (minimum 0,
maximum 99, interval 1), `setValue(200)` followed by `value()` returns 99,
not 200 — the inner Qt slider bounds the step index `round(200) = 200` to its
maximum 99 — and 99 is not a nearest multiple of the interval to 200. -/
theorem setValue_roundtrip_counterexample :
    ScaleSlider.value (ScaleSlider.init.setValue 200) = 99 ∧
      ¬ isNearestMultiple ScaleSlider.init 200
          (ScaleSlider.value (ScaleSlider.init.setValue 200)) := by
  have hval : ScaleSlider.value (ScaleSlider.init.setValue 200) = 99 := by
    rw [ScaleSlider.init_eval]
    simp [ScaleSlider.setValue, ScaleSlider.value, QSliderState.setValue, pyRound]
  refine ⟨hval, ?_⟩
  rw [hval, ScaleSlider.init_eval]
  rintro ⟨-, habs⟩
  norm_num [isNearestMultiple] at habs

/-- C9 (amended): `setValue(v)` followed by `value()` returns v rounded to
the nearest multiple of the configured interval above the configured minimum
(Python `round`, ties to the even step index), *provided* the interval is
positive and the rounded step index lies within the inner Qt slider's integer
range; outside that range the inner slider bounds the index, and the result is
the clamped grid value instead. -/
theorem setValue_value_roundtrip (s : ScaleSlider) (v : ℚ)
    (hpos : 0 < s.interval)
    (hlo : s.slider.minimum ≤ pyRound ((v - s.minv) / s.interval))
    (hhi : pyRound ((v - s.minv) / s.interval) ≤ s.slider.maximum) :
    isNearestMultiple s v ((s.setValue v).value) := by
  set idx := pyRound ((v - s.minv) / s.interval) with hidx
  have hstore : (s.setValue v).slider.value = idx := by
    show max s.slider.minimum (min s.slider.maximum idx) = idx
    rw [min_eq_right hhi, max_eq_right hlo]
  have hval : (s.setValue v).value = s.minv + (idx : ℚ) * s.interval := by
    show ((s.setValue v).slider.value : ℚ) * s.interval + s.minv = _
    rw [hstore]; ring
  have hne : s.interval ≠ 0 := ne_of_gt hpos
  refine ⟨⟨idx, hval⟩, ?_⟩
  rw [hval]
  have heq : s.minv + (idx : ℚ) * s.interval - v =
      ((idx : ℚ) - (v - s.minv) / s.interval) * s.interval := by
    field_simp
    ring
  rw [heq, abs_mul, abs_of_pos hpos]
  have habs : |(idx : ℚ) - (v - s.minv) / s.interval| ≤ 1/2 := by
    rw [hidx]
    exact pyRound_abs_le _
  calc |(idx : ℚ) - (v - s.minv) / s.interval| * s.interval
      ≤ (1/2) * s.interval := mul_le_mul_of_nonneg_right habs (le_of_lt hpos)
    _ = s.interval / 2 := by ring

/-- Witness for C9 (amended) at the default configuration and `v = 5`:
`round((5 - 0) / 1) = 5` lies in the inner range 0..99 and
`value()` returns the grid point 5 itself. -/
theorem setValue_value_roundtrip_witness :
    0 < ScaleSlider.init.interval ∧
      ScaleSlider.init.slider.minimum ≤
        pyRound ((5 - ScaleSlider.init.minv) / ScaleSlider.init.interval) ∧
      pyRound ((5 - ScaleSlider.init.minv) / ScaleSlider.init.interval) ≤
        ScaleSlider.init.slider.maximum ∧
      isNearestMultiple ScaleSlider.init 5 ((ScaleSlider.init.setValue 5).value) := by
  have hpos : 0 < ScaleSlider.init.interval := by
    rw [ScaleSlider.init_eval]
    norm_num
  have hlo : ScaleSlider.init.slider.minimum ≤
      pyRound ((5 - ScaleSlider.init.minv) / ScaleSlider.init.interval) := by
    rw [ScaleSlider.init_eval]
    norm_num [pyRound]
  have hhi : pyRound ((5 - ScaleSlider.init.minv) / ScaleSlider.init.interval) ≤
      ScaleSlider.init.slider.maximum := by
    rw [ScaleSlider.init_eval]
    norm_num [pyRound]
  exact ⟨hpos, hlo, hhi, setValue_value_roundtrip ScaleSlider.init 5 hpos hlo hhi⟩

/-- C10: after construction, accessing `slider.interval` or
`slider.tickInterval` yields the numeric instance attribute (the attribute
assigned in `__init__` shadows the class's getter method of the same name),
so invoking either "getter" raises `TypeError`: the advertised get accessors
for the step interval and the tick interval are not callable operations. -/
theorem interval_getters_not_callable :
    PyVal.callNoArgs (ScaleSlider.lookupIntervalAttr ScaleSlider.init) =
        Except.error (PyErr.typeError "object is not callable") ∧
      PyVal.callNoArgs (ScaleSlider.lookupTickIntervalAttr ScaleSlider.init) =
        Except.error (PyErr.typeError "object is not callable") :=
  ⟨rfl, rfl⟩
